import Mathlib

/-!
Verification of the MAGIN backend (`src/backend`) judgment pipeline.

Embedding conventions:
* Python JSON values / dicts are modelled by the nested inductive `JVal`;
  Python `str` is modelled as `List Char` (one `Char` per Python character).
* Python numbers (int and float) are both modelled as `ℚ`.  The arithmetic
  the backend performs (clamping, sums, division by small counts) is exact
  on the values it handles, so `ℚ` is faithful there; `float('inf')`/`nan`
  have no `ℚ` counterpart and are modelled as non-coercible.
* Functions that recurse through nested JSON values or scan text take an
  explicit fuel argument; callers pass a fuel that provably exceeds the
  number of loop iterations (the scanners advance their position by at
  least one character per iteration), so the fuel never runs out.
* A Python function that can raise an exception that its callers do not
  catch is modelled with an explicit `raised`-style result.
-/

set_option maxRecDepth 4000

/-- JSON value, mirroring what `json.loads` in `magi_orchestrator.py` can
produce: `None`, booleans, numbers, strings, lists and dicts (dicts as
association lists in insertion order, keys unique). -/
inductive JVal where
  | jnull : JVal
  | jbool (b : Bool) : JVal
  | jnum (q : ℚ) : JVal
  | jstr (s : String) : JVal
  | jarr (elems : List JVal) : JVal
  | jobj (fields : List (String × JVal)) : JVal

/-- Dict lookup: first (= only, keys are unique) binding of `k`. -/
def objGet? : List (String × JVal) → String → Option JVal
  | [], _ => none
  | (k', v) :: rest, k => if k' = k then some v else objGet? rest k

/-- Dict assignment `d[k] = v`: overwrite in place if the key exists
(CPython dicts keep the original insertion position), else append. -/
def objSet : List (String × JVal) → String → JVal → List (String × JVal)
  | [], k, v => [(k, v)]
  | (k', v') :: rest, k, v =>
      if k' = k then (k, v) :: rest else (k', v') :: objSet rest k v

/-- Python truthiness of a JSON value (`if not response`). -/
def pyFalsy : JVal → Bool
  | .jnull => true
  | .jbool b => !b
  | .jnum q => decide (q = 0)
  | .jstr s => decide (s = "")
  | .jarr xs => xs.isEmpty
  | .jobj fs => fs.isEmpty

/-- Is `needle` a contiguous sublist of `hay` (Python `needle in hay` on str). -/
def isSubListOf (needle : List Char) : List Char → Bool
  | [] => needle.isEmpty
  | c :: t => needle.isPrefixOf (c :: t) || isSubListOf needle t

/-- Python `x == s` where `s` is a str: true only when `x` is that string. -/
def jvalEqStr : JVal → String → Bool
  | .jstr t, s => decide (t = s)
  | _, _ => false

/-- Python `key in v`: key test on dicts, membership on lists, substring on
strings; `none` models the `TypeError` raised on non-container values. -/
def pyContains (key : String) : JVal → Option Bool
  | .jobj fs => some (objGet? fs key).isSome
  | .jarr xs => some (xs.any (fun v => jvalEqStr v key))
  | .jstr s => some (isSubListOf key.data s.data)
  | _ => none

/-- The `for field in required: if field not in response` loops of
`validate_ai_response`: `none` models a `TypeError` from `in`,
`some (some f)` is the first missing field, `some none` means all present. -/
def firstMissing : List String → JVal → Option (Option String)
  | [], _ => some none
  | f :: rest, v =>
      match pyContains f v with
      | none => none
      | some true => firstMissing rest v
      | some false => some (some f)

/-- ASCII decimal digits to a natural number. -/
def digitsToNat : List Char → Nat → Nat
  | [], acc => acc
  | c :: rest, acc => digitsToNat rest (acc * 10 + (c.toNat - '0'.toNat))

/-- Python whitespace stripped by `float(...)` / `int(...)` (ASCII part). -/
def isPySpace (c : Char) : Bool :=
  c = ' ' || c = '\t' || c = '\n' || c = '\r' || c = '\x0b' || c = '\x0c'

/-- Model of Python `float(s)` on a string: optional sign, decimal digits
with an optional point and an optional exponent, surrounded by optional
whitespace.  `inf` / `nan` (accepted by Python but with no `ℚ` value) and
digit-group underscores are modelled as non-coercible. -/
def parseFloatStr (cs : List Char) : Option ℚ :=
  let cs := (cs.dropWhile isPySpace).reverse.dropWhile isPySpace |>.reverse
  let (sgn, cs) : ℚ × List Char :=
    match cs with
    | '-' :: rest => (-1, rest)
    | '+' :: rest => (1, rest)
    | _ => (1, cs)
  let ipart := cs.takeWhile Char.isDigit
  let cs := cs.dropWhile Char.isDigit
  let (fpart, cs) : List Char × List Char :=
    match cs with
    | '.' :: rest => (rest.takeWhile Char.isDigit, rest.dropWhile Char.isDigit)
    | _ => ([], cs)
  if ipart.isEmpty && fpart.isEmpty then none
  else
    let mant : ℚ := (digitsToNat ipart 0 : ℚ) +
      (digitsToNat fpart 0 : ℚ) / (10 : ℚ) ^ fpart.length
    match cs with
    | [] => some (sgn * mant)
    | e :: rest =>
        if e = 'e' || e = 'E' then
          let (esgn, rest) : ℤ × List Char :=
            match rest with
            | '-' :: r => (-1, r)
            | '+' :: r => (1, r)
            | _ => (1, rest)
          let edig := rest.takeWhile Char.isDigit
          let rest := rest.dropWhile Char.isDigit
          if edig.isEmpty || !rest.isEmpty then none
          else some (sgn * mant * (10 : ℚ) ^ (esgn * (digitsToNat edig 0 : ℤ)))
        else none

/-- Model of Python `int(s)` on a string: optional sign and decimal digits
only (so `"1.5"` is non-coercible, as in Python). -/
def parseIntStr (cs : List Char) : Option ℤ :=
  let cs := (cs.dropWhile isPySpace).reverse.dropWhile isPySpace |>.reverse
  let (sgn, cs) : ℤ × List Char :=
    match cs with
    | '-' :: rest => (-1, rest)
    | '+' :: rest => (1, rest)
    | _ => (1, cs)
  if cs.isEmpty || !(cs.all Char.isDigit) then none
  else some (sgn * (digitsToNat cs 0 : ℤ))

/-- `int(q)` on a number: truncation toward zero (`Int.div`, matching
Python's `int(float)`). -/
def truncQ (q : ℚ) : ℤ := q.num.tdiv (q.den : ℤ)

/-- Python `float(v)`: numbers pass through, booleans become 0/1, strings
are parsed; everything else raises `TypeError` (modelled as `none`; the
caller in `validate_ai_response` catches it). -/
def pyFloat : JVal → Option ℚ
  | .jnum q => some q
  | .jbool b => some (if b then 1 else 0)
  | .jstr s => parseFloatStr s.data
  | _ => none

/-- Python `int(v)`: numbers truncate toward zero, booleans become 0/1,
strings must be integer literals; everything else raises (as `none`). -/
def pyInt : JVal → Option ℤ
  | .jnum q => some (truncQ q)
  | .jbool b => some (if b then 1 else 0)
  | .jstr s => parseIntStr s.data
  | _ => none

/-- Python `sum(values)` over dict values: numbers and booleans add,
anything else raises `TypeError` (modelled as `none`; in
`validate_ai_response` step 8 that exception is NOT caught). -/
def pySum : List JVal → Option ℚ
  | [] => some 0
  | v :: rest =>
      match v with
      | .jnum q => (pySum rest).map (fun t => q + t)
      | .jbool b => (pySum rest).map (fun t => (if b then (1 : ℚ) else 0) + t)
      | _ => none

/-- Clamp a score to `[0.0, 1.0]` (`max(0.0, min(1.0, value))`,
`magi_orchestrator.py:406`). -/
def clip01 (q : ℚ) : ℚ := max 0 (min 1 q)

/-- Result of the score-clipping loop of `validate_ai_response` step 3. -/
inductive ClipRes where
  | ok (fields : List (String × JVal)) : ClipRes
  | badKey (k : String) : ClipRes
  | raised : ClipRes

/-- Step 3 of `validate_ai_response`: for each required score key, coerce
to float and clamp; `float(...)`'s `TypeError`/`ValueError` is caught and
becomes `badKey` (the error names the key).  `raised` models the uncaught
`KeyError` of a missing key, unreachable because presence is checked in
step 2. -/
def clipScores : List String → List (String × JVal) → ClipRes
  | [], fs => .ok fs
  | k :: rest, fs =>
      match objGet? fs k with
      | none => .raised
      | some v =>
          match pyFloat v with
          | none => .badKey k
          | some q => clipScores rest (objSet fs k (.jnum (clip01 q)))

/-- Outcome of `validate_ai_response`: `ok sanitized` models
`(True, None, sanitized)`, `invalid msg` models `(False, msg, None)`, and
`raised` models an exception escaping the function (only possible on
malformed container shapes that the real pipeline never produces). -/
inductive VResult where
  | ok (sanitized : JVal) : VResult
  | invalid (msg : String) : VResult
  | raised : VResult

/-- `sanitized["decision"] not in ["承認", "部分的承認", "否決", "NOT_APPLICABLE"]`
(list membership is string equality, so non-strings are never allowed). -/
def isAllowedDecision : JVal → Bool
  | .jstr s =>
      decide (s = "承認") || decide (s = "部分的承認") ||
      decide (s = "否決") || decide (s = "NOT_APPLICABLE")
  | _ => false

/-- `sanitized["hard_flag"] not in ["none", "compliance", "security", "privacy"]`. -/
def isAllowedHardFlag : JVal → Bool
  | .jstr s =>
      decide (s = "none") || decide (s = "compliance") ||
      decide (s = "security") || decide (s = "privacy")
  | _ => false

/-- `validate_ai_response` (`magi_orchestrator.py:362-440`), step for step:
1. required top-level fields, 2. required score sub-fields, 3. scores
coerced to float and clamped to `[0,1]` (non-coercible ⇒ error naming the
key), 4. out-of-enum decision silently replaced by `"否決"`, 5. severity
coerced to int and clamped to `[0,100]` (non-coercible ⇒ error), 6. invalid
or absent hard_flag becomes `"none"`, 7. non-list or absent concerns becomes
`[]`, 8. absent average_score becomes the mean of ALL entries of the scores
dict (`sum(scores.values()) / len(scores)`).  The deep copy of the input is
modelled implicitly (all operations are pure). -/
def validate_ai_response (response : JVal) : VResult :=
  if pyFalsy response then .invalid ("Empty response")
  else
    match firstMissing ["scores", "decision", "severity", "reason"] response with
    | none => .raised
    | some (some f) => .invalid ("必須フィールド欠如: " ++ f)
    | some none =>
      match response with
      | .jobj rfs =>
        match objGet? rfs "scores" with
        | none => .raised
        | some scoresV =>
          match firstMissing ["validity", "feasibility", "risk", "certainty"] scoresV with
          | none => .raised
          | some (some f) => .invalid ("必須スコア欠如: " ++ f)
          | some none =>
            match scoresV with
            | .jobj sfs =>
              match clipScores ["validity", "feasibility", "risk", "certainty"] sfs with
              | .raised => .raised
              | .badKey k => .invalid ("不正なスコア値: " ++ k)
              | .ok sfs2 =>
                let rfs2 := objSet rfs "scores" (.jobj sfs2)
                let rfs3 :=
                  match objGet? rfs2 "decision" with
                  | some d =>
                      if isAllowedDecision d then rfs2
                      else objSet rfs2 "decision" (.jstr "否決")
                  | none => rfs2
                  -- the none branch is unreachable: "decision" presence
                  -- was checked in step 1 and step 3 does not remove keys
                match objGet? rfs3 "severity" with
                | none => .raised
                | some sv =>
                  match pyInt sv with
                  | none => .invalid ("不正な重大度値")
                  | some n =>
                    let rfs4 := objSet rfs3 "severity" (.jnum ((max 0 (min 100 n) : ℤ) : ℚ))
                    let rfs5 :=
                      match objGet? rfs4 "hard_flag" with
                      | some hf =>
                          if isAllowedHardFlag hf then rfs4
                          else objSet rfs4 "hard_flag" (.jstr "none")
                      | none => objSet rfs4 "hard_flag" (.jstr "none")
                    let rfs6 :=
                      match objGet? rfs5 "concerns" with
                      | some (.jarr _) => rfs5
                      | some _ => objSet rfs5 "concerns" (.jarr [])
                      | none => objSet rfs5 "concerns" (.jarr [])
                    match objGet? rfs6 "average_score" with
                    | some _ => .ok (.jobj rfs6)
                    | none =>
                      match objGet? rfs6 "scores" with
                      | some (.jobj sfs3) =>
                        match pySum (sfs3.map (fun p => p.2)) with
                        | none => .raised
                        | some total =>
                          if sfs3.length = 0 then .raised
                          else .ok (.jobj (objSet rfs6 "average_score"
                            (.jnum (total / (sfs3.length : ℚ)))))
                      | _ => .raised
            | _ =>
              -- scores passed the membership check but is not a dict:
              -- `float(sanitized["scores"]["validity"])` raises `TypeError`,
              -- which the `except` clause turns into the validity error.
              .invalid ("不正なスコア値: validity")
      | _ => .raised

/-! ## Aggregation layer (`severity_judge.py`)

Validated responses always carry the keys `decision`, `severity`,
`hard_flag` and `concerns` (`validate_ai_response` inserts the optional
ones), so the judgment layer is modelled over a structured record. -/

/-- The fields of a validated AI response that the judgment logic reads. -/
structure Resp where
  decision : String
  severity : ℤ
  hard_flag : String
  concerns : List String
deriving DecidableEq

/-- One entry of the list returned by `run_parallel_judgment`: the result
dict of a single judge.  Failed judges have `success = false` and
`response = none` (every failure path of `call_ai_async` / `ai_factory`
sets `"response": None`). -/
structure JudgeResult where
  ai : String
  success : Bool
  response : Option Resp
  error : Option String
  elapsed_seconds : ℚ
deriving DecidableEq

/-- Accumulating loop of `check_hard_flags` (`severity_judge.py:91-129`):
every response dict (success status irrelevant) contributes its
`hard_flag` when it is not `"none"` and not already collected. -/
def check_hard_flags_loop : List JudgeResult → List String → List String
  | [], acc => acc
  | r :: rest, acc =>
      match r.response with
      | some resp =>
          if resp.hard_flag ≠ "none" ∧ resp.hard_flag ∉ acc then
            check_hard_flags_loop rest (acc ++ [resp.hard_flag])
          else check_hard_flags_loop rest acc
      | none => check_hard_flags_loop rest acc

/-- `check_hard_flags` (`severity_judge.py:91-129`). -/
def check_hard_flags (responses : List JudgeResult) : List String :=
  check_hard_flags_loop responses []

/-- The severity values of successful responses, in order — the list
comprehension shared by `calculate_judgment_severity` and
`_compute_final_severity` (`r.get("success") and r.get("response")`;
the severity key always exists on a validated response). -/
def successfulSeverities (rs : List JudgeResult) : List ℤ :=
  rs.filterMap (fun r =>
    match r.response with
    | some resp => if r.success then some resp.severity else none
    | none => none)

/-- Python `round(x, 1)`: modelled as round-half-up on exact tenths.
(Python uses round-half-even on the underlying float; the two differ only
at exact `.05` ties, which no theorem below touches.) -/
def roundTo1 (q : ℚ) : ℚ := ((round (q * 10) : ℤ) : ℚ) / 10

/-- `calculate_judgment_severity` (`severity_judge.py:31-84`), the OLD
formula `max(avg, max * 0.8)` rounded to one decimal; returns `0.0` when
no successful response carries a severity. -/
def calculate_judgment_severity (rs : List JudgeResult) : ℚ :=
  match successfulSeverities rs with
  | [] => 0
  | s :: rest =>
      let sevs := s :: rest
      let avg : ℚ := ((sevs.map (fun z => (z : ℚ))).sum) / (sevs.length : ℚ)
      let mx : ℤ := rest.foldl max s
      roundTo1 (max avg ((mx : ℚ) * (8 / 10)))

/-- `_compute_final_severity` (`severity_judge.py:423-458`), the NEW
formula: the plain maximum of the successful severities, `0.0` if none. -/
def _compute_final_severity (rs : List JudgeResult) : ℚ :=
  match successfulSeverities rs with
  | [] => 0
  | s :: rest => ((rest.foldl max s : ℤ) : ℚ)

/-- `_get_judgment_thresholds` (`severity_judge.py:461-492`):
`(approve, conditional)` per severity tier. -/
def _get_judgment_thresholds (severity : ℚ) : ℚ × ℚ :=
  if 80 ≤ severity then (3, 2)
  else if 50 ≤ severity then (2, 3 / 2)
  else (3 / 2, 1)

/-- The `severity_level` classification used in `_determine_final_decision`. -/
def severityLevel (severity : ℚ) : String :=
  if 80 ≤ severity then "HIGH" else if 50 ≤ severity then "MID" else "LOW"

/-- `decision_scores.get(decision, 0.0)` (`severity_judge.py:528-539`):
承認 = 1.0, 部分的承認 = 0.5, everything else (否決, NOT_APPLICABLE, …) = 0.0. -/
def decisionScore (d : String) : ℚ :=
  if d = "承認" then 1 else if d = "部分的承認" then 1 / 2 else 0

/-- `[r for r in responses if r.get("success") and r.get("response")]`. -/
def successfulResps (rs : List JudgeResult) : List Resp :=
  rs.filterMap (fun r =>
    match r.response with
    | some resp => if r.success then some resp else none
    | none => none)

/-- The weighted-vote total of `_determine_final_decision` step 2. -/
def total_decision_score (rs : List JudgeResult) : ℚ :=
  ((successfulResps rs).map (fun resp => decisionScore resp.decision)).sum

/-- `"{:.1f}".format` for the non-negative exact tenths produced by the
judgment logic (vote totals are multiples of 0.5, thresholds of 0.5). -/
def fmt1 (q : ℚ) : String :=
  let t : ℕ := (Rat.floor (q * 10)).toNat
  toString (t / 10) ++ "." ++ toString (t % 10)

/-- `', '.join(set(hard_flags))` of the hard-flag branch.  Python's set
iteration order is unspecified; it is modelled as the collection order
(`check_hard_flags` already deduplicates), and no theorem below inspects
this string. -/
def joinFlags (flags : List String) : String := String.intercalate ", " flags

/-- `_determine_final_decision` (`severity_judge.py:495-565`): hard flags
first (absolute veto ⇒ 否決 with score 0), then the weighted vote against
the tier thresholds.  Returns `(result, reasoning, severity_level,
total_score)`. -/
def _determine_final_decision (responses : List JudgeResult)
    (final_severity : ℚ) (hard_flags : List String) :
    String × String × String × ℚ :=
  if "compliance" ∈ hard_flags ∨ "security" ∈ hard_flags ∨ "privacy" ∈ hard_flags then
    ("否決", "ハードフラグ検出: " ++ joinFlags hard_flags ++ "により自動否決",
      severityLevel final_severity, 0)
  else
    let total_score := total_decision_score responses
    let thresholds := _get_judgment_thresholds final_severity
    let lv := severityLevel final_severity
    if thresholds.1 ≤ total_score then
      ("承認", "合計点" ++ fmt1 total_score ++ "/" ++ fmt1 thresholds.1 ++
        " (" ++ lv ++ "重大度)", lv, total_score)
    else if thresholds.2 ≤ total_score then
      ("条件付き承認", "合計点" ++ fmt1 total_score ++ "/" ++ fmt1 thresholds.1 ++
        " (" ++ lv ++ "重大度)", lv, total_score)
    else
      ("否決", "合計点" ++ fmt1 total_score ++ "/" ++ fmt1 thresholds.2 ++
        "未満 (" ++ lv ++ "重大度)", lv, total_score)

/-- Count of successful responses whose decision is `NOT_APPLICABLE`
(`severity_judge.py:184-185`). -/
def notApplicableCount (rs : List JudgeResult) : ℕ :=
  ((successfulResps rs).filter
    (fun resp => decide (resp.decision = "NOT_APPLICABLE"))).length

/-- `calculate_final_result` (`severity_judge.py:136-192`): the
NOT_APPLICABLE short circuit (≥ 2 successful NOT_APPLICABLE decisions)
runs BEFORE everything else, then `_determine_final_decision`. -/
def calculate_final_result (responses : List JudgeResult)
    (judgment_severity : ℚ) (hard_flags : List String) :
    String × String × String × ℚ :=
  if 2 ≤ notApplicableCount responses then
    ("NOT_APPLICABLE", "この質問は意思決定事項ではありません", "NONE", 0)
  else
    _determine_final_decision responses judgment_severity hard_flags

/-! ## Dispatch layer (`magi_orchestrator.py:699-825`) -/

/-- What `asyncio.gather(*tasks, return_exceptions=True)` hands back for
one judge task: either its result dict (the per-judge wrappers catch their
own exceptions and timeouts and return failure dicts) or an exception
raised by the task; `ai` is the configured node name used when folding an
exception into an error result. -/
inductive TaskOutcome where
  | result (r : JudgeResult) : TaskOutcome
  | exn (ai : String) (msg : String) : TaskOutcome

/-- The exception-folding loop of `run_parallel_judgment`
(`magi_orchestrator.py:797-815`): exceptions become failure results. -/
def foldExceptions (outcomes : List TaskOutcome) : List JudgeResult :=
  outcomes.map (fun o =>
    match o with
    | .result r => r
    | .exn ai msg => ⟨ai, false, none, some msg, 0⟩)

/-- `sum(1 for r in processed_results if r["success"])`. -/
def successCount (rs : List JudgeResult) : ℕ :=
  (rs.filter (fun r => r.success)).length

/-- `run_parallel_judgment` after the gather (`magi_orchestrator.py:
793-825`): fold exceptions into failure results, then raise
`ValueError("At least 2 AIs must respond")` when fewer than 2 succeeded
(modelled as `.error`), else return the full submission-ordered list. -/
def run_parallel_judgment (outcomes : List TaskOutcome) :
    Except String (List JudgeResult) :=
  let processed := foldExceptions outcomes
  if successCount processed < 2 then .error ("At least 2 AIs must respond")
  else .ok processed

/-! ## `judge_issue` (`severity_judge.py:270-394`) -/

/-- The severities of success-marked responses
(`[r["response"]["severity"] for r in successful_responses]`, where
`successful_responses` filters on success only): `none` models the
`TypeError` of subscripting a `None` response. -/
def seversOfSuccessful : List JudgeResult → Option (List ℤ)
  | [] => some []
  | r :: rest =>
      if r.success then
        match r.response with
        | none => none
        | some resp => (seversOfSuccessful rest).map (fun l => resp.severity :: l)
      else seversOfSuccessful rest

/-- The fields of `JudgmentModel` that `judge_issue` computes.  (The
`total_score` keyword passed by `judge_issue` is silently dropped:
`JudgmentModel` declares no such field and pydantic ignores extras.) -/
structure Judgment where
  result : String
  avg_severity : ℚ
  judgment_severity : ℚ
  severity_level : String
  reasoning : String
deriving DecidableEq

/-- The pydantic field validators of `JudgmentModel` (`models.py:194-283`)
on the fields the core computes: `result` and `severity_level` must be in
their enums (validators raise otherwise), the severities must lie in
`[0, 100]` (`ge`/`le` constraints). `none` models a raised
`ValidationError`. -/
def mkJudgmentModel (result : String) (avg jsev : ℚ)
    (level : String) (reasoning : String) : Option Judgment :=
  if (result = "承認" ∨ result = "否決" ∨ result = "条件付き承認" ∨ result = "NOT_APPLICABLE")
      ∧ (0 ≤ avg ∧ avg ≤ 100) ∧ (0 ≤ jsev ∧ jsev ≤ 100)
      ∧ (level = "HIGH" ∨ level = "MID" ∨ level = "LOW" ∨ level = "NONE") then
    some ⟨result, avg, jsev, level, reasoning⟩
  else none

/-- Outcome of one `judge_issue` call: a verdict, the quorum `ValueError`
(the only failure the design surfaces), or another uncaught exception. -/
inductive JudgeOutcome where
  | verdict (j : Judgment) : JudgeOutcome
  | quorumError (msg : String) : JudgeOutcome
  | pyError : JudgeOutcome
deriving DecidableEq

/-- `f"{ai_name}: {error}"` of the quorum diagnostics; a present-but-`None`
error renders as `"None"`. -/
def errorDetail (r : JudgeResult) : String :=
  r.ai ++ ": " ++ (match r.error with | some e => e | none => "None")

/-- `judge_issue` (`severity_judge.py:270-394`) from the point the gather
results are in: run the coordinator (whose own quorum `ValueError`
propagates out), re-check the quorum, compute the max severity, the
(discarded) average severity, the hard flags, the final result tuple, and
construct the `JudgmentModel` (which stores `judgment_severity` in
`avg_severity`; the computed average is NOT used). -/
def judge_issue (outcomes : List TaskOutcome) : JudgeOutcome :=
  match run_parallel_judgment outcomes with
  | .error msg => .quorumError msg
  | .ok responses =>
    let successful := responses.filter (fun r => r.success)
    if successful.length < 2 then
      .quorumError ("少なくとも2つのAIが必要ですが、" ++ toString successful.length ++
        "個のみ成功しました。 エラー詳細: " ++
        String.intercalate "; " (responses.map errorDetail))
    else
      let jsev := _compute_final_severity responses
      match seversOfSuccessful responses with
      | none => .pyError
      | some sevs =>
        -- line 334-335: computed for "database storage" but the model is
        -- then constructed with judgment_severity in its place.
        let _avg : ℚ := ((sevs.map (fun z => (z : ℚ))).sum) / (sevs.length : ℚ)
        let hard_flags := check_hard_flags responses
        let fr := calculate_final_result responses jsev hard_flags
        match mkJudgmentModel fr.1 jsev jsev fr.2.2.1 fr.2.1 with
        | some j => .verdict j
        | none => .pyError

/-! ## JSON recovery layer (`magi_orchestrator.py:158-316, 602-638`)

`json.loads` is modelled by a strict JSON reader over `List Char`
(fuel-indexed recursive descent; the fuel passed by the wrappers exceeds
any possible recursion depth).  Python-specific liberal constants
(`NaN`, `Infinity`) have no `ℚ` value and are modelled as parse failures;
no input below uses them. -/

/-- JSON whitespace (`' '`, `'\t'`, `'\n'`, `'\r'`). -/
def jsonWs (c : Char) : Bool := c = ' ' || c = '\t' || c = '\n' || c = '\r'

def skipWs (cs : List Char) : List Char := cs.dropWhile jsonWs

/-- Value of a hex digit. -/
def hexVal (c : Char) : Option Nat :=
  if '0' ≤ c ∧ c ≤ '9' then some (c.toNat - '0'.toNat)
  else if 'a' ≤ c ∧ c ≤ 'f' then some (10 + c.toNat - 'a'.toNat)
  else if 'A' ≤ c ∧ c ≤ 'F' then some (10 + c.toNat - 'A'.toNat)
  else none

/-- JSON short escapes. -/
def escChar : Char → Option Char
  | '"' => some '"'
  | '\\' => some '\\'
  | '/' => some '/'
  | 'b' => some '\x08'
  | 'f' => some '\x0c'
  | 'n' => some '\n'
  | 'r' => some '\r'
  | 't' => some '\t'
  | _ => none

/-- JSON string body after the opening quote: strict mode (unescaped
control characters are rejected, like Python's default `json.loads`);
`\uXXXX` is decoded as a single code point (surrogate pairs are not
recombined; no input below uses `\u`). -/
def pString : List Char → Option (List Char × List Char)
  | [] => none
  | '"' :: rest => some ([], rest)
  | '\\' :: 'u' :: h1 :: h2 :: h3 :: h4 :: rest =>
      (match hexVal h1, hexVal h2, hexVal h3, hexVal h4 with
       | some a, some b, some c, some d =>
         (pString rest).map (fun p =>
           (Char.ofNat (((a * 16 + b) * 16 + c) * 16 + d) :: p.1, p.2))
       | _, _, _, _ => none)
  | '\\' :: e :: rest =>
      (match escChar e with
       | some c => (pString rest).map (fun p => (c :: p.1, p.2))
       | none => none)
  | c :: rest =>
      if c.toNat < 32 then none
      else (pString rest).map (fun p => (c :: p.1, p.2))

/-- The integer part of a JSON number: `0` or a nonzero digit followed by
digits (leading zeros are not part of the number token). -/
def pIntPart : List Char → Option (Nat × List Char)
  | '0' :: rest => some (0, rest)
  | c :: rest =>
      if c.isDigit then
        some (digitsToNat (c :: rest.takeWhile Char.isDigit) 0,
          rest.dropWhile Char.isDigit)
      else none
  | [] => none

/-- A JSON number token (`-?(0|[1-9]\d*)(\.\d+)?([eE][-+]?\d+)?`); an
unmatched optional group leaves its characters unconsumed, as the regex
does. -/
def pNumber (cs : List Char) : Option (ℚ × List Char) :=
  let sgn : Bool × List Char :=
    match cs with
    | '-' :: r => (true, r)
    | _ => (false, cs)
  match pIntPart sgn.2 with
  | none => none
  | some (i, cs2) =>
    let frac : Nat × Nat × List Char :=
      match cs2 with
      | '.' :: r =>
          let fd := r.takeWhile Char.isDigit
          if fd.isEmpty then (0, 0, cs2)
          else (digitsToNat fd 0, fd.length, r.dropWhile Char.isDigit)
      | _ => (0, 0, cs2)
    let ex : ℤ × List Char :=
      match frac.2.2 with
      | c :: r =>
          if c = 'e' ∨ c = 'E' then
            let es : ℤ × List Char :=
              match r with
              | '-' :: r2 => (-1, r2)
              | '+' :: r2 => (1, r2)
              | _ => (1, r)
            let ed := es.2.takeWhile Char.isDigit
            if ed.isEmpty then (0, frac.2.2)
            else (es.1 * (digitsToNat ed 0 : ℤ), es.2.dropWhile Char.isDigit)
          else (0, frac.2.2)
      | [] => (0, frac.2.2)
    let mant : ℚ := (i : ℚ) + (frac.1 : ℚ) / (10 : ℚ) ^ frac.2.1
    let v : ℚ := mant * (10 : ℚ) ^ ex.1
    some (if sgn.1 then -v else v, ex.2)

mutual

/-- One JSON value (fuel-indexed recursive descent). -/
def pJVal : Nat → List Char → Option (JVal × List Char)
  | 0, _ => none
  | fuel + 1, cs =>
    match skipWs cs with
    | '\x7b' :: rest =>
        (match skipWs rest with
         | '\x7d' :: rest2 => some (.jobj [], rest2)
         | _ =>
           match pJMembers fuel rest [] with
           | some (fs, r) => some (.jobj fs, r)
           | none => none)
    | '[' :: rest =>
        (match skipWs rest with
         | ']' :: rest2 => some (.jarr [], rest2)
         | _ =>
           match pJItems fuel rest [] with
           | some (xs, r) => some (.jarr xs, r)
           | none => none)
    | '"' :: rest =>
        (match pString rest with
         | some (s, r) => some (.jstr (String.mk s), r)
         | none => none)
    | 't' :: 'r' :: 'u' :: 'e' :: rest => some (.jbool true, rest)
    | 'f' :: 'a' :: 'l' :: 's' :: 'e' :: rest => some (.jbool false, rest)
    | 'n' :: 'u' :: 'l' :: 'l' :: rest => some (.jnull, rest)
    | other =>
        (match pNumber other with
         | some (q, r) => some (.jnum q, r)
         | none => none)

/-- Members of a JSON object (after the `{`); duplicate keys overwrite in
place, as sequential dict assignment does in Python. -/
def pJMembers : Nat → List Char → List (String × JVal) →
    Option (List (String × JVal) × List Char)
  | 0, _, _ => none
  | fuel + 1, cs, acc =>
    match skipWs cs with
    | '"' :: rest =>
      (match pString rest with
       | none => none
       | some (key, r1) =>
         match skipWs r1 with
         | ':' :: r2 =>
           (match pJVal fuel r2 with
            | none => none
            | some (v, r3) =>
              let acc2 := objSet acc (String.mk key) v
              match skipWs r3 with
              | ',' :: r4 => pJMembers fuel r4 acc2
              | '\x7d' :: r4 => some (acc2, r4)
              | _ => none)
         | _ => none)
    | _ => none

/-- Items of a JSON array (after the `[`). -/
def pJItems : Nat → List Char → List JVal → Option (List JVal × List Char)
  | 0, _, _ => none
  | fuel + 1, cs, acc =>
    match pJVal fuel cs with
    | none => none
    | some (v, r1) =>
      match skipWs r1 with
      | ',' :: r2 => pJItems fuel r2 (acc ++ [v])
      | ']' :: r2 => some (acc ++ [v], r2)
      | _ => none

end

/-- `json.loads`: one value, optionally surrounded by whitespace; anything
trailing is an error. -/
def jsonLoads (cs : List Char) : Option JVal :=
  match pJVal (2 * cs.length + 2) cs with
  | some (v, rest) => if (skipWs rest).isEmpty then some v else none
  | none => none

/-! `json.dumps(·, ensure_ascii=False)` with default separators.  The
int/float distinction is merged in `ℚ`, so integer-valued floats print
without a trailing `.0`; `jsonDumps` is used only to advance the Codex
scan position past a parsed candidate, and no input below contains
float-typed integer literals. -/

def hexDigit (n : Nat) : Char :=
  if n < 10 then Char.ofNat ('0'.toNat + n) else Char.ofNat ('a'.toNat + n - 10)

/-- JSON string escaping as `json.dumps` does it (ensure_ascii=False). -/
def jdStrBody : List Char → List Char
  | [] => []
  | c :: rest =>
    (if c = '"' then ['\\', '"']
     else if c = '\\' then ['\\', '\\']
     else if c = '\x08' then ['\\', 'b']
     else if c = '\x0c' then ['\\', 'f']
     else if c = '\n' then ['\\', 'n']
     else if c = '\r' then ['\\', 'r']
     else if c = '\t' then ['\\', 't']
     else if c.toNat < 32 then
       ['\\', 'u', '0', '0', hexDigit (c.toNat / 16), hexDigit (c.toNat % 16)]
     else [c]) ++ jdStrBody rest

def jdStr (s : String) : List Char := '"' :: jdStrBody s.data ++ ['"']

/-- Smallest `k` (up to the fuel) with `q * 10^k` integral. -/
def decPow : ℚ → Nat → Nat
  | _, 0 => 0
  | q, fuel + 1 => if q.den = 1 then 0 else 1 + decPow (q * 10) fuel

/-- Leading zero padding to `k` digits. -/
def padZeros (ds : List Char) (k : Nat) : List Char :=
  List.replicate (k - ds.length) '0' ++ ds

/-- A JSON number as `json.dumps` prints it: integers plainly, other
rationals as their exact decimal expansion (parsed JSON numbers always
have a power-of-ten denominator). -/
def jdNum (q : ℚ) : List Char :=
  if q.den = 1 then (toString q.num).data
  else
    let k := decPow q 64
    let mag := (q * (10 : ℚ) ^ k).num.natAbs
    (if q.num < 0 then ['-'] else []) ++ (Nat.repr (mag / 10 ^ k)).data ++
      '.' :: padZeros (Nat.repr (mag % 10 ^ k)).data k

/-- `", "`-style separators. -/
def joinSep (sep : List Char) : List (List Char) → List Char
  | [] => []
  | [x] => x
  | x :: y :: rest => x ++ sep ++ joinSep sep (y :: rest)

/-- `json.dumps(v, ensure_ascii=False)` (fuel-indexed over nesting). -/
def jdV : Nat → JVal → List Char
  | 0, _ => []
  | fuel + 1, v =>
    match v with
    | .jnull => ('n' :: ('u' :: ('l' :: ['l'])))
    | .jbool b => if b then ['t', 'r', 'u', 'e'] else ['f', 'a', 'l', 's', 'e']
    | .jnum q => jdNum q
    | .jstr s => jdStr s
    | .jarr xs => '[' :: joinSep [',', ' '] (xs.map (jdV fuel)) ++ [']']
    | .jobj fs => '\x7b' :: joinSep [',', ' ']
        (fs.map (fun p => jdStr p.1 ++ ':' :: ' ' :: jdV fuel p.2)) ++ ['\x7d']

/-! The pre-processing regex `re.sub(r'(\n\s*)([a-zA-Z_][a-zA-Z0-9_]*)":',
r'\1"\2":', text)` of `extract_json_from_markdown` (line 248): re-quote a
field name missing its opening quote. -/

def isIdentStart (c : Char) : Bool := c.isAlpha || c = '_'

def isIdentChar (c : Char) : Bool := c.isAlphanum || c = '_'

/-- Try the missing-quote pattern at the start of `cs`: `\n`, whitespace,
an identifier, then `":`.  Returns the replacement and the remainder.
(`\s` is modelled over ASCII whitespace; the backend's texts contain no
exotic Unicode whitespace.) -/
def fmqTry (cs : List Char) : Option (List Char × List Char) :=
  match cs with
  | '\n' :: rest =>
    let ws := rest.takeWhile isPySpace
    (match rest.dropWhile isPySpace with
     | c :: r2 =>
       if isIdentStart c then
         let idt := r2.takeWhile isIdentChar
         (match r2.dropWhile isIdentChar with
          | '"' :: ':' :: r4 =>
              some ('\n' :: ws ++ '"' :: c :: idt ++ ['"', ':'], r4)
          | _ => none)
       else none
     | [] => none)
  | _ => none

/-- Left-to-right, non-overlapping `re.sub` scan for the pattern above. -/
def fixMissingQuotes : Nat → List Char → List Char
  | 0, cs => cs
  | fuel + 1, cs =>
    match fmqTry cs with
    | some (repl, rest) => repl ++ fixMissingQuotes fuel rest
    | none =>
      match cs with
      | [] => []
      | c :: rest => c :: fixMissingQuotes fuel rest

/-! The fenced-block searches (`re.search(r'```json\s*\n(.*?)\n```', text,
re.DOTALL)` and the unlabeled variant). -/

/-- Index of the first occurrence of `needle` in `hay`. -/
def findSub (needle : List Char) : List Char → Option Nat
  | [] => if needle.isEmpty then some 0 else none
  | c :: t =>
      if needle.isPrefixOf (c :: t) then some 0
      else (findSub needle t).map (fun i => i + 1)

/-- After `\s*\n` has been consumed: the non-greedy `(.*?)` runs up to the
first `\n```” that follows. -/
def fencedBody (afterNl : List Char) : Option (List Char) :=
  (findSub ("\n```").data afterNl).map (fun i => afterNl.take i)

/-- Greedy `\s*` with backtracking: candidate newline positions inside the
whitespace run, tried longest first. -/
def fencedTryKs (rest : List Char) : List Nat → Option (List Char)
  | [] => none
  | k :: more =>
      match fencedBody (rest.drop (k + 1)) with
      | some body => some body
      | none => fencedTryKs rest more

/-- Try the fenced pattern with the given opening `label` at the start of
`cs`. -/
def fencedAtPos (label : List Char) (cs : List Char) : Option (List Char) :=
  if label.isPrefixOf cs then
    let rest := cs.drop label.length
    let ws := rest.takeWhile isPySpace
    let ks := (List.range ws.length).filter (fun k => decide (ws.get? k = some '\n'))
    fencedTryKs rest ks.reverse
  else none

/-- `re.search`: the leftmost position with a match wins. -/
def fencedSearch (label : List Char) : List Char → Option (List Char)
  | [] => none
  | c :: t =>
      match fencedAtPos label (c :: t) with
      | some body => some body
      | none => fencedSearch label t

/-! The raw brace scan of `extract_json_from_markdown` (lines 266-316). -/

/-- Index of the first `'{'` at a position `≥ start`. -/
def findBraceFrom (cs : List Char) (start : Nat) : Option Nat :=
  (findSub ['\x7b'] (cs.drop start)).map (fun i => i + start)

/-- The inner character loop: track brace depth, string state and escape
state (a backslash escapes the next character even outside strings, and a
quote toggles string state, exactly as the Python loop does); return the
absolute index where the depth returns to zero, or `none` if it never
does. -/
def balEnd : List Char → Nat → Nat → Bool → Bool → Option Nat
  | [], _, _, _, _ => none
  | chx :: rest, idx, depth, inStr, esc =>
    if esc then balEnd rest (idx + 1) depth inStr false
    else if chx = '\\' then balEnd rest (idx + 1) depth inStr true
    else if chx = '"' then balEnd rest (idx + 1) depth (!inStr) esc
    else if !inStr && chx = '\x7b' then balEnd rest (idx + 1) (depth + 1) inStr esc
    else if !inStr && chx = '\x7d' then
      if depth = 1 then some idx else balEnd rest (idx + 1) (depth - 1) inStr esc
    else balEnd rest (idx + 1) depth inStr esc

/-- The outer `while` loop of the raw scan: find the next `'{'`, capture
the balanced span, try to parse it; on parse failure resume from just past
the span's CLOSING brace (`search_start = i + 1`, line 310); when no
balanced close exists, resume from just past the opening brace
(`search_start = start_idx + 1`, line 314). -/
def rawScanFrom (cs : List Char) : Nat → Nat → Option JVal
  | 0, _ => none
  | fuel + 1, search_start =>
    if search_start < cs.length then
      match findBraceFrom cs search_start with
      | none => none
      | some start_idx =>
        match balEnd (cs.drop start_idx) start_idx 0 false false with
        | some endIdx =>
          (match jsonLoads ((cs.drop start_idx).take (endIdx + 1 - start_idx)) with
           | some v => some v
           | none => rawScanFrom cs fuel (endIdx + 1))
        | none => rawScanFrom cs fuel (start_idx + 1)
    else none

def extractRawJson (t : List Char) : Option JVal :=
  rawScanFrom t (t.length + 1) 0

/-- Fallback chain after the ```json block attempt: unlabeled fenced
block, then the raw scan. -/
def extractAfterJsonFence (t : List Char) : Option JVal :=
  match fencedSearch ("```").data t with
  | some body =>
      (match jsonLoads body with
       | some v => some v
       | none => extractRawJson t)
  | none => extractRawJson t

/-- `extract_json_from_markdown` (`magi_orchestrator.py:224-316`): empty
text fails; otherwise pre-process the missing-quote defect, then try a
```json fence, any fence, and finally the raw brace scan, falling through
on parse failures. -/
def extract_json_from_markdown (text : List Char) : Option JVal :=
  if text.isEmpty then none
  else
    let t := fixMissingQuotes (text.length + 1) text
    match fencedSearch ("```json").data t with
    | some body =>
        (match jsonLoads body with
         | some v => some v
         | none => extractAfterJsonFence t)
    | none => extractAfterJsonFence t

/-! The Codex/ChatGPT multi-candidate loop inside `call_ai_async`
(`magi_orchestrator.py:602-638`). -/

/-- `key in test_json` on a parsed candidate (`getD false`: the raised
branch of `in` cannot arise, candidates are parsed containers). -/
def jHasKey (tj : JVal) (k : String) : Bool := (pyContains k tj).getD false

/-- `test_json.get('decision') == 'NOT_APPLICABLE'`. -/
def jDecisionIsNA (tj : JVal) : Bool :=
  match tj with
  | .jobj fs =>
      (match objGet? fs "decision" with
       | some v => jvalEqStr v "NOT_APPLICABLE"
       | none => false)
  | _ => false

/-- `'scores' not in test_json and 'validity' in test_json`. -/
def isIncompleteCand (tj : JVal) : Bool :=
  !(jHasKey tj "scores") && jHasKey tj "validity"

/-- `not is_persona and not is_not_applicable and not is_incomplete`. -/
def codexFilterOk (tj : JVal) : Bool :=
  !(jHasKey tj "persona_name") && !(jDecisionIsNA tj) && !(isIncompleteCand tj)

/-- The collection loop (lines 605-633): find the next `'{'`, run the full
recoverer on the suffix, keep candidates passing the filter, and advance
past `len(json.dumps(test_json, ensure_ascii=False))` characters (or one
character when nothing parsed). -/
def codexLoop (cs : List Char) : Nat → Nat → List JVal → List JVal
  | 0, _, acc => acc
  | fuel + 1, search_pos, acc =>
    if search_pos < cs.length then
      match findBraceFrom cs search_pos with
      | none => acc
      | some brace_pos =>
        match extract_json_from_markdown (cs.drop brace_pos) with
        | some tj =>
            codexLoop cs fuel (brace_pos + (jdV (cs.length + 1) tj).length)
              (if codexFilterOk tj then acc ++ [tj] else acc)
        | none => codexLoop cs fuel (brace_pos + 1) acc
    else acc

/-- `json_data = all_jsons[-1] if all_jsons else None` (line 636): the
whole Codex/ChatGPT extraction of `call_ai_async`. -/
def call_ai_codex_select (cs : List Char) : Option JVal :=
  (codexLoop cs (cs.length + 1) 0 []).getLast?

/-! Spec-worded reference variants (for the refinement comparisons; these
follow the WORDS of spec §4.1, deliberately NOT the code, and are used
only to exhibit where code and spec diverge). -/

/-- Raw scan as §4.1 words it: "On parse failure, resume scanning from
just past the failed opening delimiter (not from the failure point)". -/
def rawScanSpecResume (cs : List Char) : Nat → Nat → Option JVal
  | 0, _ => none
  | fuel + 1, search_start =>
    if search_start < cs.length then
      match findBraceFrom cs search_start with
      | none => none
      | some start_idx =>
        match balEnd (cs.drop start_idx) start_idx 0 false false with
        | some endIdx =>
          (match jsonLoads ((cs.drop start_idx).take (endIdx + 1 - start_idx)) with
           | some v => some v
           | none => rawScanSpecResume cs fuel (start_idx + 1))
        | none => rawScanSpecResume cs fuel (start_idx + 1)
    else none

/-- The recoverer with the spec-worded resumption rule in its raw scan. -/
def extract_json_spec_resume (text : List Char) : Option JVal :=
  if text.isEmpty then none
  else
    let t := fixMissingQuotes (text.length + 1) text
    let raw := rawScanSpecResume t (t.length + 1) 0
    match fencedSearch ("```json").data t with
    | some body =>
        (match jsonLoads body with
         | some v => some v
         | none =>
           match fencedSearch ("```").data t with
           | some body2 =>
               (match jsonLoads body2 with
                | some v => some v
                | none => raw)
           | none => raw)
    | none =>
        match fencedSearch ("```").data t with
        | some body2 =>
            (match jsonLoads body2 with
             | some v => some v
             | none => raw)
        | none => raw

/-- The collection loop without any filtering: every parsed candidate. -/
def codexCollectAll (cs : List Char) : Nat → Nat → List JVal → List JVal
  | 0, _, acc => acc
  | fuel + 1, search_pos, acc =>
    if search_pos < cs.length then
      match findBraceFrom cs search_pos with
      | none => acc
      | some brace_pos =>
        match extract_json_from_markdown (cs.drop brace_pos) with
        | some tj =>
            codexCollectAll cs fuel (brace_pos + (jdV (cs.length + 1) tj).length)
              (acc ++ [tj])
        | none => codexCollectAll cs fuel (brace_pos + 1) acc
    else acc

/-- Candidate selection as §4.1 words it: discard persona echoes and
truncated candidates, discard the NOT_APPLICABLE sentinel ONLY when more
authoritative candidates exist, then take the last remaining one. -/
def specCandidateSelection (cands : List JVal) : Option JVal :=
  let base := cands.filter
    (fun tj => !(jHasKey tj "persona_name") && !(isIncompleteCand tj))
  let authoritative := base.filter (fun tj => !(jDecisionIsNA tj))
  (if authoritative.isEmpty then base else authoritative).getLast?

/-- The Codex extraction with the spec-worded selection rule. -/
def codex_select_spec (cs : List Char) : Option JVal :=
  specCandidateSelection (codexCollectAll cs (cs.length + 1) 0 [])

/-! ## Helpers used by theorem statements -/

/-- A judge result with its concerns erased (for stating that the verdict
never depends on concerns). -/
def stripConcerns (r : JudgeResult) : JudgeResult :=
  { r with response := r.response.map (fun resp => { resp with concerns := [] }) }

/-- A judge result with its decision replaced. -/
def withDecision (r : JudgeResult) (d : String) : JudgeResult :=
  { r with response := r.response.map (fun resp => { resp with decision := d }) }

/-! ## Concrete inputs for witnesses and counterexamples -/

/-- A successful judge result with the given decision, severity, hard flag
and concerns. -/
def mkJR (d : String) (sev : ℤ) (hf : String) (cons : List String) : JudgeResult :=
  ⟨"AI", true, some ⟨d, sev, hf, cons⟩, none, 1⟩

/-- Three successful judges with severities 30, 90, 40. -/
def sevEx : List JudgeResult :=
  [mkJR "承認" 30 "none" [], mkJR "部分的承認" 90 "none" [], mkJR "承認" 40 "none" []]

/-- Two successful NOT_APPLICABLE judges, one of them carrying a security
hard flag, plus an approving judge. -/
def naVetoEx : List JudgeResult :=
  [mkJR "NOT_APPLICABLE" 10 "security" [], mkJR "NOT_APPLICABLE" 10 "none" [],
    mkJR "承認" 10 "none" []]

/-- Three approvals, one of which carries a security hard flag. -/
def vetoEx : List JudgeResult :=
  [mkJR "承認" 20 "security" [], mkJR "承認" 20 "none" [], mkJR "承認" 20 "none" []]

/-- A mid-severity panel whose vote total lands in the conditional band,
with a concern raised by the partially-approving judge. -/
def condEx : List JudgeResult :=
  [mkJR "承認" 60 "none" [], mkJR "部分的承認" 55 "none" ["コスト増"],
    mkJR "否決" 58 "none" []]

/-- Gather outcomes: two successful judges and one judge task that raised. -/
def quorumOkOut : List TaskOutcome :=
  [.result (mkJR "承認" 60 "none" []), .result (mkJR "承認" 55 "none" []),
    .exn "ChatGPT" "timeout"]

/-- Gather outcomes: every judge task raised. -/
def allFailOut : List TaskOutcome :=
  [.exn "AI 1" "boom", .exn "AI 2" "boom", .exn "AI 3" "boom"]

/-- Codex output consisting of exactly one well-formed object: the
NOT_APPLICABLE sentinel. -/
def soloNAText : List Char := ("\x7b\"decision\": \"NOT_APPLICABLE\"\x7d").data

/-- Codex output: an echoed persona object followed by two full answers. -/
def personaThenTwoText : List Char :=
  ("\x7b\"persona_name\": \"p\"\x7d \x7b\"scores\": \x7b\"risk\": 1\x7d, \"decision\": \"A\"\x7d \x7b\"scores\": \x7b\"risk\": 1\x7d, \"decision\": \"B\"\x7d").data

/-- Codex output: a full answer followed by the NOT_APPLICABLE sentinel. -/
def answerThenNAText : List Char :=
  ("\x7b\"scores\": \x7b\"risk\": 1\x7d, \"decision\": \"B\"\x7d \x7b\"decision\": \"NOT_APPLICABLE\"\x7d").data

/-- Codex output: a lone truncated candidate (bare scores, no wrapper). -/
def incompleteOnlyText : List Char := ("\x7b\"validity\": 1\x7d").data

/-- A balanced but unparseable span that CONTAINS a well-formed object. -/
def failSpanInnerText : List Char := ("\x7boops \x7b\"x\": 1\x7d \x7d").data

/-- A balanced but unparseable span FOLLOWED by a well-formed object. -/
def failSpanThenObjText : List Char := ("\x7boops\x7d \x7b\"x\": 1\x7d").data

/-- A raw response whose score container has a fifth entry beyond the four
required sub-scores. -/
def extraScoreRaw : JVal :=
  .jobj [("scores", .jobj [("validity", .jnum 1), ("feasibility", .jnum 1),
    ("risk", .jnum 1), ("certainty", .jnum 1), ("extra", .jnum 0)]),
    ("decision", .jstr "承認"), ("severity", .jnum 10), ("reason", .jstr "r")]

/-- What `validate_ai_response` produces for `extraScoreRaw`. -/
def extraScoreOut : List (String × JVal) :=
  [("scores", .jobj [("validity", .jnum 1), ("feasibility", .jnum 1),
    ("risk", .jnum 1), ("certainty", .jnum 1), ("extra", .jnum 0)]),
    ("decision", .jstr "承認"), ("severity", .jnum 10), ("reason", .jstr "r"),
    ("hard_flag", .jstr "none"), ("concerns", .jarr []),
    ("average_score", .jnum (4 / 5))]

/-- The canonical raw-response shape used by the validator theorems: the
four required top-level keys, with a score container holding exactly the
four required sub-scores. -/
def rawResponse (v1 v2 v3 v4 dv sv rv : JVal) : JVal :=
  .jobj [("scores", .jobj [("validity", v1), ("feasibility", v2),
    ("risk", v3), ("certainty", v4)]),
    ("decision", dv), ("severity", sv), ("reason", rv)]

/-! ## Helper lemmas -/

theorem foldl_max_self_le {α : Type} [LinearOrder α] :
    ∀ (rest : List α) (s : α), s ≤ rest.foldl max s
  | [], s => le_refl s
  | a :: t, s => le_trans (le_max_left s a) (foldl_max_self_le t (max s a))

theorem foldl_max_mem {α : Type} [LinearOrder α] :
    ∀ (rest : List α) (s : α), rest.foldl max s = s ∨ rest.foldl max s ∈ rest
  | [], _ => Or.inl rfl
  | a :: t, s => by
      rcases foldl_max_mem t (max s a) with h | h
      · rw [List.foldl_cons] at *
        rcases max_choice s a with h2 | h2
        · rw [h, h2]; exact Or.inl rfl
        · rw [h, h2]; exact Or.inr (List.mem_cons_self a t)
      · exact Or.inr (List.mem_cons_of_mem a h)

theorem foldl_max_le_of_mem {α : Type} [LinearOrder α] :
    ∀ (rest : List α) (s x : α), x ∈ rest → x ≤ rest.foldl max s
  | [], _, x, hx => absurd hx (List.not_mem_nil x)
  | a :: t, s, x, hx => by
      rcases List.mem_cons.1 hx with rfl | hx'
      · exact le_trans (le_max_right s x) (foldl_max_self_le t (max s x))
      · exact foldl_max_le_of_mem t (max s a) x hx'

theorem check_hard_flags_loop_acc_mem :
    ∀ (rs : List JudgeResult) (acc : List String) (f : String),
      f ∈ acc → f ∈ check_hard_flags_loop rs acc
  | [], _, _, hf => hf
  | r :: rest, acc, f, hf => by
      cases hr : r.response with
      | none =>
        simp only [check_hard_flags_loop, hr]
        exact check_hard_flags_loop_acc_mem rest acc f hf
      | some resp =>
        simp only [check_hard_flags_loop, hr]
        by_cases hc : resp.hard_flag ≠ "none" ∧ resp.hard_flag ∉ acc
        · rw [if_pos hc]
          exact check_hard_flags_loop_acc_mem rest _ f (by simp [hf])
        · rw [if_neg hc]
          exact check_hard_flags_loop_acc_mem rest acc f hf

theorem mem_check_hard_flags_loop :
    ∀ (rs : List JudgeResult) (acc : List String) (r : JudgeResult) (resp : Resp),
      r ∈ rs → r.response = some resp → resp.hard_flag ≠ "none" →
      resp.hard_flag ∈ check_hard_flags_loop rs acc
  | [], _, _, _, hmem, _, _ => absurd hmem (List.not_mem_nil _)
  | a :: rest, acc, r, resp, hmem, hresp, hne => by
      rcases List.mem_cons.1 hmem with rfl | hmem'
      · simp only [check_hard_flags_loop, hresp]
        by_cases hc : resp.hard_flag ∉ acc
        · rw [if_pos ⟨hne, hc⟩]
          exact check_hard_flags_loop_acc_mem rest _ _ (by simp)
        · rw [if_neg (by tauto)]
          exact check_hard_flags_loop_acc_mem rest acc _ (by
            simpa using hc)
      · cases ha : a.response with
        | none =>
          simp only [check_hard_flags_loop, ha]
          exact mem_check_hard_flags_loop rest acc r resp hmem' hresp hne
        | some resp' =>
          simp only [check_hard_flags_loop, ha]
          by_cases hc : resp'.hard_flag ≠ "none" ∧ resp'.hard_flag ∉ acc
          · rw [if_pos hc]
            exact mem_check_hard_flags_loop rest _ r resp hmem' hresp hne
          · rw [if_neg hc]
            exact mem_check_hard_flags_loop rest acc r resp hmem' hresp hne

/-- A response with a non-none hard flag is always collected. -/
theorem mem_check_hard_flags (rs : List JudgeResult) (r : JudgeResult)
    (resp : Resp) (hmem : r ∈ rs) (hresp : r.response = some resp)
    (hne : resp.hard_flag ≠ "none") :
    resp.hard_flag ∈ check_hard_flags rs :=
  mem_check_hard_flags_loop rs [] r resp hmem hresp hne

theorem successfulResps_append (l1 l2 : List JudgeResult) :
    successfulResps (l1 ++ l2) = successfulResps l1 ++ successfulResps l2 := by
  simp [successfulResps]

theorem total_decision_score_append (l1 l2 : List JudgeResult) :
    total_decision_score (l1 ++ l2)
      = total_decision_score l1 + total_decision_score l2 := by
  simp [total_decision_score, successfulResps_append]

theorem notApplicableCount_append (l1 l2 : List JudgeResult) :
    notApplicableCount (l1 ++ l2)
      = notApplicableCount l1 + notApplicableCount l2 := by
  simp [notApplicableCount, successfulResps_append]

theorem successfulResps_cons_success (r : JudgeResult) (resp : Resp)
    (l : List JudgeResult) (hs : r.success = true) (hr : r.response = some resp) :
    successfulResps (r :: l) = resp :: successfulResps l := by
  simp [successfulResps, hr, hs]

theorem mem_successfulSeverities (rs : List JudgeResult) (x : ℤ)
    (hx : x ∈ successfulSeverities rs) :
    ∃ r ∈ rs, ∃ resp : Resp, r.response = some resp ∧ r.success = true
      ∧ resp.severity = x := by
  rcases List.mem_filterMap.1 hx with ⟨r, hr, hf⟩
  refine ⟨r, hr, ?_⟩
  cases hresp : r.response with
  | none => simp [hresp] at hf
  | some resp =>
    by_cases hs : r.success = true
    · simp only [hresp, hs, if_true] at hf
      exact ⟨resp, rfl, hs, Option.some.inj hf⟩
    · simp [hresp, hs] at hf

/-! ## Claim C3 -/

/-- C3: for every non-empty set of successful judge results, the aggregate
severity `_compute_final_severity` equals the maximum of the successful
judges' severity values (characterized order-theoretically: it is a member
of the list that bounds every member); in particular, for successful
severities `[30, 90, 40]` it is `90`, which is neither the mean (`160/3`)
nor the old `max(avg, max*0.8)` formula's value (`72`). -/
theorem C3_severity_is_max :
    (∀ (rs : List JudgeResult) (s : ℤ) (rest : List ℤ),
        successfulSeverities rs = s :: rest →
        ∃ M : ℤ, _compute_final_severity rs = (M : ℚ)
          ∧ M ∈ successfulSeverities rs
          ∧ ∀ x ∈ successfulSeverities rs, x ≤ M)
    ∧ _compute_final_severity sevEx = 90
    ∧ calculate_judgment_severity sevEx = 72
    ∧ (90 : ℚ) ≠ 160 / 3 ∧ (90 : ℚ) ≠ 72 := by
  refine ⟨?_, by with_unfolding_all rfl, by with_unfolding_all rfl,
    by with_unfolding_all decide, by with_unfolding_all decide⟩
  intro rs s rest h
  refine ⟨rest.foldl max s, ?_, ?_, ?_⟩
  · unfold _compute_final_severity
    rw [h]
  · rw [h]
    rcases foldl_max_mem rest s with h1 | h1
    · rw [h1]; exact List.mem_cons_self _ _
    · exact List.mem_cons_of_mem _ h1
  · rw [h]
    intro x hx
    rcases List.mem_cons.1 hx with rfl | hx'
    · exact foldl_max_self_le rest x
    · exact foldl_max_le_of_mem rest s x hx'

/-- Witness for C3 at severities `[30, 90, 40]`. -/
theorem C3_severity_is_max_witness :
    ∃ M : ℤ, _compute_final_severity sevEx = (M : ℚ)
      ∧ M ∈ successfulSeverities sevEx
      ∧ ∀ x ∈ successfulSeverities sevEx, x ≤ M :=
  C3_severity_is_max.1 sevEx 30 [90, 40] (by with_unfolding_all rfl)

/-! ## Claim C4 -/

/-- C4 counterexample: with all three judge tasks raising, the Dispatch
Coordinator does NOT return a list of per-judge results — it raises the
quorum `ValueError` itself, so "dispatch never fails" and "quorum
sufficiency is judged only by its caller" are both false of the code. -/
theorem C4_dispatch_counterexample :
    run_parallel_judgment allFailOut = .error ("At least 2 AIs must respond")
    ∧ ∀ rs : List JudgeResult, run_parallel_judgment allFailOut ≠ .ok rs := by
  have h1 : run_parallel_judgment allFailOut
      = .error ("At least 2 AIs must respond") := by with_unfolding_all rfl
  refine ⟨h1, fun rs h => ?_⟩
  rw [h1] at h
  exact Except.noConfusion h

/-- C4 (amended): the coordinator folds individual judge exceptions into
failure results and returns the full list — but only when at least 2
results are successful; with fewer than 2 successes it raises the quorum
`ValueError("At least 2 AIs must respond")` itself, redundantly with its
caller's own quorum check. -/
theorem C4_dispatch_amended (outcomes : List TaskOutcome) :
    (2 ≤ successCount (foldExceptions outcomes) →
      run_parallel_judgment outcomes = .ok (foldExceptions outcomes)
      ∧ (foldExceptions outcomes).length = outcomes.length)
    ∧ (successCount (foldExceptions outcomes) < 2 →
      run_parallel_judgment outcomes = .error ("At least 2 AIs must respond"))
    ∧ (∀ ai msg, TaskOutcome.exn ai msg ∈ outcomes →
      (⟨ai, false, none, some msg, 0⟩ : JudgeResult) ∈ foldExceptions outcomes) := by
  refine ⟨fun h => ⟨?_, ?_⟩, fun h => ?_, fun ai msg hm => ?_⟩
  · unfold run_parallel_judgment
    rw [if_neg (by omega)]
  · simp [foldExceptions]
  · unfold run_parallel_judgment
    rw [if_pos h]
  · exact List.mem_map_of_mem _ hm

/-- Witness for C4 (amended) at concrete outcome lists. -/
theorem C4_dispatch_amended_witness :
    (run_parallel_judgment quorumOkOut = .ok (foldExceptions quorumOkOut)
      ∧ (foldExceptions quorumOkOut).length = quorumOkOut.length)
    ∧ run_parallel_judgment allFailOut = .error ("At least 2 AIs must respond") :=
  ⟨(C4_dispatch_amended quorumOkOut).1 (by with_unfolding_all decide),
    (C4_dispatch_amended allFailOut).2.1 (by with_unfolding_all decide)⟩

/-! ## Claim C7 -/

/-- C7 counterexample: when the NOT_APPLICABLE sentinel is the ONLY
well-formed candidate (so no "more authoritative candidates exist"), the
code still discards it and returns `None`, while the spec-worded selection
rule would return the sentinel. -/
theorem C7_codex_counterexample :
    call_ai_codex_select soloNAText = none
    ∧ codex_select_spec soloNAText
        = some (.jobj [("decision", .jstr "NOT_APPLICABLE")]) :=
  ⟨by with_unfolding_all rfl, by with_unfolding_all rfl⟩

/-- C7 (amended): the Codex/ChatGPT extractor discards echoed persona
objects, discards the NOT_APPLICABLE sentinel UNCONDITIONALLY (even when
it is the latest or the only candidate), discards truncated candidates
(bare sub-scores without the wrapper), returns the last remaining
candidate, and returns `None` when no candidate remains. -/
theorem C7_codex_amended :
    call_ai_codex_select personaThenTwoText
      = some (.jobj [("scores", .jobj [("risk", .jnum 1)]), ("decision", .jstr "B")])
    ∧ call_ai_codex_select answerThenNAText
      = some (.jobj [("scores", .jobj [("risk", .jnum 1)]), ("decision", .jstr "B")])
    ∧ call_ai_codex_select incompleteOnlyText = none :=
  ⟨by with_unfolding_all rfl, by with_unfolding_all rfl, by with_unfolding_all rfl⟩

/-! ## Claim C8 -/

/-- C8 counterexample: on a balanced span that fails to parse but contains
a well-formed object, the code's scan returns `None` — it resumes past the
span's CLOSING brace — while the spec-worded rule (resume just past the
failed OPENING brace) would find the inner object. -/
theorem C8_scan_counterexample :
    extract_json_from_markdown failSpanInnerText = none
    ∧ extract_json_spec_resume failSpanInnerText = some (.jobj [("x", .jnum 1)]) :=
  ⟨by with_unfolding_all rfl, by with_unfolding_all rfl⟩

/-- C8 (amended): after a balanced span fails to parse, the scan resumes
from just past that span's closing brace (the failure point): an object
AFTER the failed span is found, an object INSIDE it is never revisited. -/
theorem C8_scan_amended :
    extract_json_from_markdown failSpanThenObjText = some (.jobj [("x", .jnum 1)])
    ∧ extract_json_from_markdown failSpanInnerText = none :=
  ⟨by with_unfolding_all rfl, by with_unfolding_all rfl⟩

/-! ## Claim C2 -/

/-- C2 counterexample: a result set with two successful NOT_APPLICABLE
judges, one of which carries the `security` hard flag.  The flag is
detected, yet the NOT_APPLICABLE short circuit runs BEFORE the hard-flag
check, so the final decision is `NOT_APPLICABLE`, not `否決`. -/
theorem C2_veto_counterexample :
    check_hard_flags naVetoEx = ["security"]
    ∧ calculate_final_result naVetoEx (_compute_final_severity naVetoEx)
        (check_hard_flags naVetoEx)
      = ("NOT_APPLICABLE", "この質問は意思決定事項ではありません", "NONE", 0)
    ∧ ("NOT_APPLICABLE" : String) ≠ "否決" :=
  ⟨by with_unfolding_all rfl, by with_unfolding_all rfl, by decide⟩

/-- C2 (amended): PROVIDED fewer than two successful judges report
NOT_APPLICABLE, any response carrying a compliance/security/privacy hard
flag forces the final decision to `否決` with `totalVoteScore = 0`,
regardless of all decisions, scores and severities. -/
theorem C2_veto_amended (rs : List JudgeResult) (sev : ℚ)
    (r : JudgeResult) (resp : Resp)
    (hmem : r ∈ rs) (hresp : r.response = some resp)
    (hflag : resp.hard_flag = "compliance" ∨ resp.hard_flag = "security"
      ∨ resp.hard_flag = "privacy")
    (hna : notApplicableCount rs < 2) :
    (calculate_final_result rs sev (check_hard_flags rs)).1 = "否決"
    ∧ (calculate_final_result rs sev (check_hard_flags rs)).2.2.2 = 0 := by
  have hne : resp.hard_flag ≠ "none" := by
    rcases hflag with h | h | h <;> simp [h]
  have hmemflag := mem_check_hard_flags rs r resp hmem hresp hne
  have hcond : "compliance" ∈ check_hard_flags rs
      ∨ "security" ∈ check_hard_flags rs ∨ "privacy" ∈ check_hard_flags rs := by
    rcases hflag with h | h | h
    · exact Or.inl (h ▸ hmemflag)
    · exact Or.inr (Or.inl (h ▸ hmemflag))
    · exact Or.inr (Or.inr (h ▸ hmemflag))
  unfold calculate_final_result
  rw [if_neg (by omega)]
  unfold _determine_final_decision
  rw [if_pos hcond]
  exact ⟨rfl, rfl⟩

/-- Witness for C2 (amended): a security flag among three approvals. -/
theorem C2_veto_amended_witness :
    (calculate_final_result vetoEx 20 (check_hard_flags vetoEx)).1 = "否決"
    ∧ (calculate_final_result vetoEx 20 (check_hard_flags vetoEx)).2.2.2 = 0 :=
  C2_veto_amended vetoEx 20 (mkJR "承認" 20 "security" [])
    ⟨"承認", 20, "security", []⟩
    (by unfold vetoEx; exact List.mem_cons_self _ _)
    (by with_unfolding_all rfl)
    (by decide) (by with_unfolding_all decide)
/-! ## Claim C6 -/

theorem successfulResps_map_stripConcerns (rs : List JudgeResult) :
    successfulResps (rs.map stripConcerns)
      = (successfulResps rs).map (fun resp => { resp with concerns := [] }) := by
  induction rs with
  | nil => rfl
  | cons r rest ih =>
    cases hresp : r.response with
    | none =>
      simp only [List.map_cons, successfulResps, List.filterMap_cons,
        stripConcerns, hresp, Option.map_none'] at *
      exact ih
    | some resp =>
      by_cases hs : r.success = true
      · simp only [List.map_cons, successfulResps, List.filterMap_cons,
          stripConcerns, hresp, Option.map_some', hs, if_true] at *
        simp [ih]
      · simp only [List.map_cons, successfulResps, List.filterMap_cons,
          stripConcerns, hresp, Option.map_some', hs, if_false] at *
        exact ih

theorem total_decision_score_stripConcerns (rs : List JudgeResult) :
    total_decision_score (rs.map stripConcerns) = total_decision_score rs := by
  unfold total_decision_score
  rw [successfulResps_map_stripConcerns, List.map_map]
  rfl

theorem notApplicableCount_stripConcerns (rs : List JudgeResult) :
    notApplicableCount (rs.map stripConcerns) = notApplicableCount rs := by
  unfold notApplicableCount
  rw [successfulResps_map_stripConcerns, List.filter_map, List.length_map]
  rfl

/-- C6 counterexample: a ConditionalApprove verdict whose panel raised the
concern `コスト増` in a PartialApprove response — yet the reasoning is only
the score/threshold sentence, with no concern summary (neither the concern
text nor the `懸念事項` header appears, nor the generic
evaluation-pending sentence). -/
theorem C6_conditional_counterexample :
    calculate_final_result condEx (_compute_final_severity condEx)
        (check_hard_flags condEx)
      = ("条件付き承認", "合計点1.5/2.0 (MID重大度)", "MID", 3 / 2)
    ∧ ((successfulResps condEx).map (fun resp => resp.concerns))
      = [[], ["コスト増"], []]
    ∧ isSubListOf ("コスト増").data ("合計点1.5/2.0 (MID重大度)").data = false
    ∧ isSubListOf ("懸念事項").data ("合計点1.5/2.0 (MID重大度)").data = false :=
  ⟨by with_unfolding_all rfl, by with_unfolding_all rfl,
    by with_unfolding_all rfl, by with_unfolding_all rfl⟩

/-- C6 (amended): when the final decision is ConditionalApprove, the
reasoning is exactly the same score/threshold sentence used for approval —
no concern summary is appended — and the whole verdict is independent of
every judge's concerns (the concern-summary generator
`generate_conditional_reasoning` exists in the source but is never
invoked). -/
theorem C6_conditional_amended (rs : List JudgeResult) (sev : ℚ)
    (flags : List String) :
    ((calculate_final_result rs sev flags).1 = "条件付き承認" →
      (calculate_final_result rs sev flags).2.1
        = "合計点" ++ fmt1 (total_decision_score rs) ++ "/"
          ++ fmt1 (_get_judgment_thresholds sev).1
          ++ " (" ++ severityLevel sev ++ "重大度)")
    ∧ calculate_final_result rs sev flags
        = calculate_final_result (rs.map stripConcerns) sev flags := by
  constructor
  · have hA : ("NOT_APPLICABLE" : String) ≠ "条件付き承認" := by decide
    have hB : ("否決" : String) ≠ "条件付き承認" := by decide
    have hC : ("承認" : String) ≠ "条件付き承認" := by decide
    unfold calculate_final_result _determine_final_decision
    split_ifs with h1 h2
    · exact fun h => absurd h hA
    · exact fun h => absurd h hB
    · dsimp only
      split_ifs with h3 h4
      · exact fun h => absurd h hC
      · exact fun _ => rfl
      · exact fun h => absurd h hB
  · unfold calculate_final_result _determine_final_decision
    rw [total_decision_score_stripConcerns, notApplicableCount_stripConcerns]

/-- Witness for C6 (amended) at the concrete conditional-approval panel. -/
theorem C6_conditional_amended_witness :
    (calculate_final_result condEx 60 []).2.1
      = "合計点" ++ fmt1 (total_decision_score condEx) ++ "/"
        ++ fmt1 (_get_judgment_thresholds 60).1
        ++ " (" ++ severityLevel 60 ++ "重大度)" :=
  (C6_conditional_amended condEx 60 []).1 (by with_unfolding_all rfl)

/-! ## Claim C10 -/

/-- C10: when fewer than two successful judges report NOT_APPLICABLE, a
successful judge whose decision is NOT_APPLICABLE contributes exactly 0.0
to the vote — replacing its decision by `否決` leaves the entire final
result (decision, reasoning, tier, totalVoteScore) unchanged; and the
decision-score table maps NOT_APPLICABLE and 否決 to the same 0.0. -/
theorem C10_na_weight (pre post : List JudgeResult) (r : JudgeResult)
    (resp : Resp) (sev : ℚ) (flags : List String)
    (hs : r.success = true) (hr : r.response = some resp)
    (hd : resp.decision = "NOT_APPLICABLE")
    (hna : notApplicableCount (pre ++ r :: post) < 2) :
    calculate_final_result (pre ++ r :: post) sev flags
      = calculate_final_result (pre ++ withDecision r "否決" :: post) sev flags
    ∧ decisionScore "NOT_APPLICABLE" = 0 ∧ decisionScore "否決" = 0 := by
  have hdecNA : decisionScore "NOT_APPLICABLE" = 0 := by with_unfolding_all rfl
  have hdecRej : decisionScore "否決" = 0 := by with_unfolding_all rfl
  have hresp' : (withDecision r "否決").response
      = some { resp with decision := "否決" } := by
    simp [withDecision, hr]
  have hsucc' : (withDecision r "否決").success = true := hs
  have hsp1 : successfulResps (pre ++ r :: post)
      = successfulResps pre ++ resp :: successfulResps post := by
    rw [successfulResps_append, successfulResps_cons_success r resp post hs hr]
  have hsp2 : successfulResps (pre ++ withDecision r "否決" :: post)
      = successfulResps pre ++ { resp with decision := "否決" } :: successfulResps post := by
    rw [successfulResps_append,
      successfulResps_cons_success _ _ post hsucc' hresp']
  have htot : total_decision_score (pre ++ r :: post)
      = total_decision_score (pre ++ withDecision r "否決" :: post) := by
    unfold total_decision_score
    rw [hsp1, hsp2]
    simp [hd, hdecNA, hdecRej]
  have hcntT : (decide (("NOT_APPLICABLE" : String) = "NOT_APPLICABLE")) = true := by rfl
  have hcntF : (decide (("否決" : String) = "NOT_APPLICABLE")) = false := by rfl
  have e1 : notApplicableCount (pre ++ r :: post)
      = notApplicableCount pre + (1 + notApplicableCount post) := by
    unfold notApplicableCount
    rw [hsp1]
    simp [List.filter_append, List.filter_cons, hd, hcntT]
    omega
  have e2 : notApplicableCount (pre ++ withDecision r "否決" :: post)
      = notApplicableCount pre + notApplicableCount post := by
    unfold notApplicableCount
    rw [hsp2]
    simp [List.filter_append, List.filter_cons, hcntF]
  refine ⟨?_, hdecNA, hdecRej⟩
  unfold calculate_final_result
  rw [if_neg (show ¬ 2 ≤ notApplicableCount (pre ++ r :: post) from by omega),
    if_neg (show ¬ 2 ≤ notApplicableCount (pre ++ withDecision r "否決" :: post)
      from by omega)]
  unfold _determine_final_decision
  rw [htot]

/-- Witness for C10: replacing the NOT_APPLICABLE decision of the middle
judge by 否決 leaves the final result unchanged. -/
theorem C10_na_weight_witness :
    calculate_final_result
        ([mkJR "承認" 10 "none" []] ++ mkJR "NOT_APPLICABLE" 10 "none" []
          :: [mkJR "否決" 10 "none" []]) 40 []
      = calculate_final_result
          ([mkJR "承認" 10 "none" []]
            ++ withDecision (mkJR "NOT_APPLICABLE" 10 "none" []) "否決"
            :: [mkJR "否決" 10 "none" []]) 40 []
    ∧ decisionScore "NOT_APPLICABLE" = 0 ∧ decisionScore "否決" = 0 :=
  C10_na_weight [mkJR "承認" 10 "none" []] [mkJR "否決" 10 "none" []]
    (mkJR "NOT_APPLICABLE" 10 "none" []) ⟨"NOT_APPLICABLE", 10, "none", []⟩
    40 [] (by rfl) (by rfl) (by rfl) (by with_unfolding_all decide)

/-! ## Claim C9 -/

/-- C9 counterexample: with a fifth entry `extra = 0` in the score
container (all four required sub-scores being 1.0), validation succeeds and
sets `average_score = 4/5` — the mean over ALL five entries — not the mean
`1.0` of the four named sub-scores. -/
theorem C9_average_counterexample :
    validate_ai_response extraScoreRaw = .ok (.jobj extraScoreOut)
    ∧ objGet? extraScoreOut "average_score" = some (.jnum (4 / 5))
    ∧ (4 / 5 : ℚ) ≠ (clip01 1 + clip01 1 + clip01 1 + clip01 1) / 4 :=
  ⟨by with_unfolding_all rfl, by with_unfolding_all rfl,
    by with_unfolding_all decide⟩

/-- C9 (amended): the validator sets `averageScore` to the mean of ALL
entries of the score container; when the container holds exactly the four
required sub-scores (any coercible values), that is the arithmetic mean of
the clamped validity, feasibility, risk and certainty.  (With additional
keys the mean is over all values — see the counterexample.) -/
theorem C9_average_amended (v1 v2 v3 v4 dv sv rv : JVal) (q1 q2 q3 q4 : ℚ) (n : ℤ)
    (h1 : pyFloat v1 = some q1) (h2 : pyFloat v2 = some q2)
    (h3 : pyFloat v3 = some q3) (h4 : pyFloat v4 = some q4)
    (hsv : pyInt sv = some n) :
    ∃ fs, validate_ai_response (rawResponse v1 v2 v3 v4 dv sv rv) = .ok (.jobj fs)
      ∧ objGet? fs "average_score"
        = some (.jnum ((clip01 q1 + clip01 q2 + clip01 q3 + clip01 q4) / 4)) := by
  have hAB : (clip01 q1 + (clip01 q2 + (clip01 q3 + (clip01 q4 + 0)))) / ((4 : ℕ) : ℚ)
      = (clip01 q1 + clip01 q2 + clip01 q3 + clip01 q4) / 4 := by push_cast; ring
  cases hdv : isAllowedDecision dv with
  | true =>
    refine ⟨[("scores", .jobj [("validity", .jnum (clip01 q1)),
        ("feasibility", .jnum (clip01 q2)), ("risk", .jnum (clip01 q3)),
        ("certainty", .jnum (clip01 q4))]),
      ("decision", dv), ("severity", .jnum ((max 0 (min 100 n) : ℤ) : ℚ)),
      ("reason", rv), ("hard_flag", .jstr "none"), ("concerns", .jarr []),
      ("average_score", .jnum ((clip01 q1 + clip01 q2 + clip01 q3 + clip01 q4) / 4))],
      ?_, ?_⟩
    · rw [← hAB]
      simp [validate_ai_response, rawResponse, pyFalsy, firstMissing,
        pyContains, objGet?, objSet, clipScores, pySum, h1, h2, h3, h4, hsv, hdv]
    · simp [objGet?]
  | false =>
    refine ⟨[("scores", .jobj [("validity", .jnum (clip01 q1)),
        ("feasibility", .jnum (clip01 q2)), ("risk", .jnum (clip01 q3)),
        ("certainty", .jnum (clip01 q4))]),
      ("decision", .jstr "否決"), ("severity", .jnum ((max 0 (min 100 n) : ℤ) : ℚ)),
      ("reason", rv), ("hard_flag", .jstr "none"), ("concerns", .jarr []),
      ("average_score", .jnum ((clip01 q1 + clip01 q2 + clip01 q3 + clip01 q4) / 4))],
      ?_, ?_⟩
    · rw [← hAB]
      simp [validate_ai_response, rawResponse, pyFalsy, firstMissing,
        pyContains, objGet?, objSet, clipScores, pySum, h1, h2, h3, h4, hsv, hdv]
    · simp [objGet?]

/-- Witness for C9 (amended) at concrete coercible scores. -/
theorem C9_average_amended_witness :
    ∃ fs, validate_ai_response (rawResponse (.jnum 1) (.jnum (1 / 2))
        (.jnum (1 / 2)) (.jnum 0) (.jstr "承認") (.jnum 5) (.jstr "r"))
      = .ok (.jobj fs)
      ∧ objGet? fs "average_score"
        = some (.jnum ((clip01 1 + clip01 (1 / 2) + clip01 (1 / 2) + clip01 0) / 4)) :=
  C9_average_amended (.jnum 1) (.jnum (1 / 2)) (.jnum (1 / 2)) (.jnum 0)
    (.jstr "承認") (.jnum 5) (.jstr "r") 1 (1 / 2) (1 / 2) 0 (truncQ 5)
    rfl rfl rfl rfl rfl

/-! ## Claim C5 -/

theorem pyFloat_jnum (q : ℚ) : pyFloat (.jnum q) = some q := rfl

/-- C5: two-tier validation policy.  On a raw object with the required
structure present: (1) a decision outside the allowed enum is silently
replaced with `否決` and validation still SUCCEEDS; (2)-(5) a sub-score
that cannot be coerced to float makes validation FAIL with an error naming
the offending key (each of the four keys, with the earlier ones
coercible); (6) a non-coercible severity likewise makes validation fail.
Silent defaults never produce a failed result; uncoercible data always
does. -/
theorem C5_two_tier :
    (∀ (q1 q2 q3 q4 : ℚ) (dv sv rv : JVal) (n : ℤ),
        pyInt sv = some n → isAllowedDecision dv = false →
        ∃ fs, validate_ai_response
            (rawResponse (.jnum q1) (.jnum q2) (.jnum q3) (.jnum q4) dv sv rv)
          = .ok (.jobj fs)
          ∧ objGet? fs "decision" = some (.jstr "否決"))
    ∧ (∀ (v1 : JVal) (q2 q3 q4 : ℚ) (dv sv rv : JVal), pyFloat v1 = none →
        validate_ai_response
            (rawResponse v1 (.jnum q2) (.jnum q3) (.jnum q4) dv sv rv)
          = .invalid ("不正なスコア値: validity"))
    ∧ (∀ (q1 : ℚ) (v2 : JVal) (q3 q4 : ℚ) (dv sv rv : JVal), pyFloat v2 = none →
        validate_ai_response
            (rawResponse (.jnum q1) v2 (.jnum q3) (.jnum q4) dv sv rv)
          = .invalid ("不正なスコア値: feasibility"))
    ∧ (∀ (q1 q2 : ℚ) (v3 : JVal) (q4 : ℚ) (dv sv rv : JVal), pyFloat v3 = none →
        validate_ai_response
            (rawResponse (.jnum q1) (.jnum q2) v3 (.jnum q4) dv sv rv)
          = .invalid ("不正なスコア値: risk"))
    ∧ (∀ (q1 q2 q3 : ℚ) (v4 : JVal) (dv sv rv : JVal), pyFloat v4 = none →
        validate_ai_response
            (rawResponse (.jnum q1) (.jnum q2) (.jnum q3) v4 dv sv rv)
          = .invalid ("不正なスコア値: certainty"))
    ∧ (∀ (q1 q2 q3 q4 : ℚ) (dv sv rv : JVal), pyInt sv = none →
        validate_ai_response
            (rawResponse (.jnum q1) (.jnum q2) (.jnum q3) (.jnum q4) dv sv rv)
          = .invalid ("不正な重大度値")) := by
  refine ⟨?_, ?_, ?_, ?_, ?_, ?_⟩
  · intro q1 q2 q3 q4 dv sv rv n hsv hdv
    refine ⟨[("scores", .jobj [("validity", .jnum (clip01 q1)),
        ("feasibility", .jnum (clip01 q2)), ("risk", .jnum (clip01 q3)),
        ("certainty", .jnum (clip01 q4))]),
      ("decision", .jstr "否決"), ("severity", .jnum ((max 0 (min 100 n) : ℤ) : ℚ)),
      ("reason", rv), ("hard_flag", .jstr "none"), ("concerns", .jarr []),
      ("average_score", .jnum ((clip01 q1 + (clip01 q2 + (clip01 q3 + (clip01 q4 + 0))))
        / ((4 : ℕ) : ℚ)))], ?_, ?_⟩
    · simp [validate_ai_response, rawResponse, pyFalsy, firstMissing, pyFloat_jnum,
        pyContains, objGet?, objSet, clipScores, pySum, hsv, hdv]
    · simp [objGet?]
  · intro v1 q2 q3 q4 dv sv rv h1
    simp [validate_ai_response, rawResponse, pyFalsy, firstMissing, pyFloat_jnum,
      pyContains, objGet?, objSet, clipScores, pySum, h1]
  · intro q1 v2 q3 q4 dv sv rv h2
    simp [validate_ai_response, rawResponse, pyFalsy, firstMissing, pyFloat_jnum,
      pyContains, objGet?, objSet, clipScores, pySum, h2]
  · intro q1 q2 v3 q4 dv sv rv h3
    simp [validate_ai_response, rawResponse, pyFalsy, firstMissing, pyFloat_jnum,
      pyContains, objGet?, objSet, clipScores, pySum, h3]
  · intro q1 q2 q3 v4 dv sv rv h4
    simp [validate_ai_response, rawResponse, pyFalsy, firstMissing, pyFloat_jnum,
      pyContains, objGet?, objSet, clipScores, pySum, h4]
  · intro q1 q2 q3 q4 dv sv rv hsv
    cases hdv : isAllowedDecision dv with
    | true =>
      simp [validate_ai_response, rawResponse, pyFalsy, firstMissing, pyFloat_jnum,
        pyContains, objGet?, objSet, clipScores, pySum, hsv, hdv]
    | false =>
      simp [validate_ai_response, rawResponse, pyFalsy, firstMissing, pyFloat_jnum,
        pyContains, objGet?, objSet, clipScores, pySum, hsv, hdv]

/-- Witness for C5: a numeric (non-enum) decision is silently replaced and
validation succeeds; a null sub-score and a null severity each fail. -/
theorem C5_two_tier_witness :
    (∃ fs, validate_ai_response (rawResponse (.jnum 1) (.jnum 1) (.jnum 1)
        (.jnum 1) (.jnum 3) (.jnum 5) (.jstr "r")) = .ok (.jobj fs)
      ∧ objGet? fs "decision" = some (.jstr "否決"))
    ∧ validate_ai_response (rawResponse .jnull (.jnum 1) (.jnum 1) (.jnum 1)
        (.jstr "承認") (.jnum 5) (.jstr "r"))
      = .invalid ("不正なスコア値: validity")
    ∧ validate_ai_response (rawResponse (.jnum 1) (.jnum 1) (.jnum 1) (.jnum 1)
        (.jstr "承認") .jnull (.jstr "r"))
      = .invalid ("不正な重大度値") :=
  ⟨C5_two_tier.1 1 1 1 1 (.jnum 3) (.jnum 5) (.jstr "r") (truncQ 5) rfl rfl,
    C5_two_tier.2.1 .jnull 1 1 1 (.jstr "承認") (.jnum 5) (.jstr "r") rfl,
    C5_two_tier.2.2.2.2.2 1 1 1 1 (.jstr "承認") .jnull (.jstr "r") rfl⟩

/-! ## Claim C1 -/

theorem seversOfSuccessful_wf :
    ∀ (rs : List JudgeResult),
      (∀ r ∈ rs, r.success = true → ∃ resp : Resp, r.response = some resp) →
      seversOfSuccessful rs = some (successfulSeverities rs)
  | [], _ => rfl
  | r :: rest, h => by
      have ih := seversOfSuccessful_wf rest (fun r' hr' => h r' (List.mem_cons_of_mem _ hr'))
      by_cases hs : r.success = true
      · obtain ⟨resp, hresp⟩ := h r (List.mem_cons_self _ _) hs
        simp [seversOfSuccessful, successfulSeverities, hs, hresp, ih]
      · cases hresp2 : r.response <;>
          simp [seversOfSuccessful, successfulSeverities, hs, hresp2, ih]

theorem calc_result_enum (rs : List JudgeResult) (sev : ℚ) (flags : List String) :
    ((calculate_final_result rs sev flags).1 = "承認"
      ∨ (calculate_final_result rs sev flags).1 = "否決"
      ∨ (calculate_final_result rs sev flags).1 = "条件付き承認"
      ∨ (calculate_final_result rs sev flags).1 = "NOT_APPLICABLE")
    ∧ ((calculate_final_result rs sev flags).2.2.1 = "HIGH"
      ∨ (calculate_final_result rs sev flags).2.2.1 = "MID"
      ∨ (calculate_final_result rs sev flags).2.2.1 = "LOW"
      ∨ (calculate_final_result rs sev flags).2.2.1 = "NONE") := by
  unfold calculate_final_result _determine_final_decision severityLevel
  dsimp only
  split_ifs <;> simp

/-- C1: `judge_issue` produces a verdict if and only if at least 2 of the
per-judge results are successful; with 0 or 1 successes it always fails
with the quorum error (raised by the coordinator, whose message propagates
out of `judge_issue`).  `hwf` states what the pipeline guarantees about
the per-judge results: a successful result carries a validated response
(severity within `[0, 100]`). -/
theorem C1_quorum_iff (outcomes : List TaskOutcome)
    (hwf : ∀ r ∈ foldExceptions outcomes, r.success = true →
      ∃ resp : Resp, r.response = some resp
        ∧ 0 ≤ resp.severity ∧ resp.severity ≤ 100) :
    ((∃ j, judge_issue outcomes = .verdict j)
      ↔ 2 ≤ successCount (foldExceptions outcomes))
    ∧ (successCount (foldExceptions outcomes) < 2 →
      judge_issue outcomes = .quorumError ("At least 2 AIs must respond")) := by
  by_cases h2 : successCount (foldExceptions outcomes) < 2
  · have hq : judge_issue outcomes
        = .quorumError ("At least 2 AIs must respond") := by
      unfold judge_issue run_parallel_judgment
      rw [if_pos h2]
    refine ⟨⟨fun hex => ?_, fun hge => absurd hge (by omega)⟩, fun _ => hq⟩
    obtain ⟨j, hj⟩ := hex
    rw [hq] at hj
    exact JudgeOutcome.noConfusion hj
  · push_neg at h2
    have hok : run_parallel_judgment outcomes = .ok (foldExceptions outcomes) := by
      unfold run_parallel_judgment
      rw [if_neg (by omega)]
    have hnot : ¬ ((foldExceptions outcomes).filter (fun r => r.success)).length < 2 := by
      have he : successCount (foldExceptions outcomes)
          = ((foldExceptions outcomes).filter (fun r => r.success)).length := rfl
      omega
    have hwf' : ∀ r ∈ foldExceptions outcomes, r.success = true →
        ∃ resp : Resp, r.response = some resp :=
      fun r hr hs => (hwf r hr hs).imp (fun resp h => h.1)
    have hsev : seversOfSuccessful (foldExceptions outcomes)
        = some (successfulSeverities (foldExceptions outcomes)) :=
      seversOfSuccessful_wf _ hwf'
    have hbounds : 0 ≤ _compute_final_severity (foldExceptions outcomes)
        ∧ _compute_final_severity (foldExceptions outcomes) ≤ 100 := by
      unfold _compute_final_severity
      cases hs : successfulSeverities (foldExceptions outcomes) with
      | nil => norm_num
      | cons s rest =>
        have hall : ∀ x ∈ successfulSeverities (foldExceptions outcomes),
            0 ≤ x ∧ x ≤ 100 := by
          intro x hx
          obtain ⟨r, hr, resp, hresp, hsucc, hxval⟩ :=
            mem_successfulSeverities _ x hx
          obtain ⟨resp', hresp', hb1, hb2⟩ := hwf r hr hsucc
          rw [hresp] at hresp'
          obtain rfl := Option.some.inj hresp'
          subst hxval
          exact ⟨hb1, hb2⟩
        have hMmem : rest.foldl max s
            ∈ successfulSeverities (foldExceptions outcomes) := by
          rw [hs]
          rcases foldl_max_mem rest s with h | h
          · rw [h]; exact List.mem_cons_self _ _
          · exact List.mem_cons_of_mem _ h
        have hM := hall _ hMmem
        constructor
        · dsimp only
          exact_mod_cast hM.1
        · dsimp only
          exact_mod_cast hM.2
    have henum := calc_result_enum (foldExceptions outcomes)
      (_compute_final_severity (foldExceptions outcomes))
      (check_hard_flags (foldExceptions outcomes))
    have hmk : mkJudgmentModel
        (calculate_final_result (foldExceptions outcomes)
          (_compute_final_severity (foldExceptions outcomes))
          (check_hard_flags (foldExceptions outcomes))).1
        (_compute_final_severity (foldExceptions outcomes))
        (_compute_final_severity (foldExceptions outcomes))
        (calculate_final_result (foldExceptions outcomes)
          (_compute_final_severity (foldExceptions outcomes))
          (check_hard_flags (foldExceptions outcomes))).2.2.1
        (calculate_final_result (foldExceptions outcomes)
          (_compute_final_severity (foldExceptions outcomes))
          (check_hard_flags (foldExceptions outcomes))).2.1
        = some ⟨(calculate_final_result (foldExceptions outcomes)
            (_compute_final_severity (foldExceptions outcomes))
            (check_hard_flags (foldExceptions outcomes))).1,
          (_compute_final_severity (foldExceptions outcomes)),
          (_compute_final_severity (foldExceptions outcomes)),
          (calculate_final_result (foldExceptions outcomes)
            (_compute_final_severity (foldExceptions outcomes))
            (check_hard_flags (foldExceptions outcomes))).2.2.1,
          (calculate_final_result (foldExceptions outcomes)
            (_compute_final_severity (foldExceptions outcomes))
            (check_hard_flags (foldExceptions outcomes))).2.1⟩ := by
      unfold mkJudgmentModel
      rw [if_pos ⟨henum.1, ⟨hbounds.1, hbounds.2⟩, ⟨hbounds.1, hbounds.2⟩, henum.2⟩]
    refine ⟨⟨fun _ => h2, fun _ => ?_⟩, fun hlt => absurd hlt (by omega)⟩
    refine ⟨⟨(calculate_final_result (foldExceptions outcomes)
        (_compute_final_severity (foldExceptions outcomes))
        (check_hard_flags (foldExceptions outcomes))).1,
      (_compute_final_severity (foldExceptions outcomes)),
      (_compute_final_severity (foldExceptions outcomes)),
      (calculate_final_result (foldExceptions outcomes)
        (_compute_final_severity (foldExceptions outcomes))
        (check_hard_flags (foldExceptions outcomes))).2.2.1,
      (calculate_final_result (foldExceptions outcomes)
        (_compute_final_severity (foldExceptions outcomes))
        (check_hard_flags (foldExceptions outcomes))).2.1⟩, ?_⟩
    simp only [judge_issue, hok]
    rw [if_neg hnot]
    simp only [hsev]
    rw [hmk]

/-- Witness for C1 at a concrete panel: two successes and one raising
task give a verdict; three raising tasks give the quorum error. -/
theorem C1_quorum_iff_witness :
    (((∃ j, judge_issue quorumOkOut = .verdict j)
        ↔ 2 ≤ successCount (foldExceptions quorumOkOut))
      ∧ (successCount (foldExceptions quorumOkOut) < 2 →
        judge_issue quorumOkOut = .quorumError ("At least 2 AIs must respond")))
    ∧ (((∃ j, judge_issue allFailOut = .verdict j)
        ↔ 2 ≤ successCount (foldExceptions allFailOut))
      ∧ (successCount (foldExceptions allFailOut) < 2 →
        judge_issue allFailOut = .quorumError ("At least 2 AIs must respond"))) := by
  constructor
  · refine C1_quorum_iff quorumOkOut ?_
    intro r hr hs
    simp [quorumOkOut, foldExceptions, mkJR] at hr
    rcases hr with rfl | rfl | rfl
    · exact ⟨⟨"承認", 60, "none", []⟩, rfl, by decide, by decide⟩
    · exact ⟨⟨"承認", 55, "none", []⟩, rfl, by decide, by decide⟩
    · exact absurd hs (by decide)
  · refine C1_quorum_iff allFailOut ?_
    intro r hr hs
    simp [allFailOut, foldExceptions] at hr
    rcases hr with rfl | rfl | rfl <;> exact absurd hs (by decide)
